import Mathlib

/-!
Shallow embedding of the compilation-driver slice of `prz23/libra`:
`language/compiler/src/lib.rs` (the `Compiler` struct and its entry points)
and `types/src/event.rs` (`EventKey`, `EventHandle` and their canonical
serialization), together with proofs checking the natural-language
specification against the code.

External collaborator types (verified modules, compiled modules, scripts,
parsed programs, transaction arguments, account addresses) are opaque to
this slice; they are embedded as wrappers over `Nat` handles, and the
collaborator functions (parser, bytecode emitter, stdlib provider,
bytecode serializers) are fields of a `CompilerEnv` record that the driver
functions are parameterized by, so every theorem quantifies over all
collaborator behaviours.
-/

namespace LibraCompiler

/-- Opaque handle for `bytecode_verifier::VerifiedModule`. -/
structure VerifiedModule where
  vid : Nat
deriving DecidableEq

/-- Opaque handle for `vm::file_format::CompiledModule`. -/
structure CompiledModule where
  mid : Nat
deriving DecidableEq

/-- Opaque handle for `vm::file_format::CompiledScript`. -/
structure CompiledScript where
  sid : Nat
deriving DecidableEq

/-- Opaque handle for one parsed module definition inside a parsed program. -/
structure ParsedModuleDef where
  pmid : Nat
deriving DecidableEq

/-- Result of `parse_program`: an opaque script part plus the list of parsed
module definitions (`parsed_program.modules` is read by `compile_mod`). -/
structure ParsedProgram where
  scriptPart : Nat
  modules : List ParsedModuleDef
deriving DecidableEq

/-- `vm::file_format::CompiledProgram`: one script plus its modules. -/
structure CompiledProgram where
  script : CompiledScript
  modules : List CompiledModule
deriving DecidableEq

/-- Opaque handle for `types::transaction::TransactionArgument`. -/
structure TransactionArgument where
  aid : Nat
deriving DecidableEq

/-- Opaque fixed-width `types::account_address::AccountAddress`. -/
structure AccountAddress where
  addrId : Nat
deriving DecidableEq

/-- `types::transaction::Program::new(code, modules, args)`: plain record of
serialized script bytes, serialized module byte blocks, and arguments. -/
structure Program where
  code : List Nat
  modules : List (List Nat)
  args : List TransactionArgument
deriving DecidableEq

/-- Error taxonomy of `Result<T>` (`failure::Error`) as the driver produces
it: a parse failure, an emission failure, or a serialization failure, each
carrying an opaque payload. -/
inductive CompilerError where
  | parseError : Nat → CompilerError
  | compileError : Nat → CompilerError
  | serializationError : Nat → CompilerError
deriving DecidableEq

/-- Outcome of a Rust function that may return `Ok`, return `Err`, or abort
the process via `assert_eq!` / `.expect(...)`. The `abort` constructor
models a panic, which is observably distinct from a returned error. -/
inductive RustOutcome (α : Type) where
  | ok : α → RustOutcome α
  | err : CompilerError → RustOutcome α
  | abort : RustOutcome α
deriving DecidableEq

/-- The external collaborators of the driver: parser, the two emitter entry
points, the module emitter, the lazily loaded stdlib baseline, and the
bytecode serializers. All are opaque to this slice; driver functions are
parameterized by this record. -/
structure CompilerEnv where
  parse_program : String → Except Nat ParsedProgram
  compile_program : AccountAddress → ParsedProgram → List VerifiedModule →
    Except Nat CompiledProgram
  compile_program_2 : AccountAddress → ParsedProgram → List VerifiedModule →
    Except Nat CompiledProgram
  compile_module : AccountAddress → ParsedModuleDef → List VerifiedModule →
    Except Nat CompiledModule
  stdlib_modules : List VerifiedModule
  serialize_script : CompiledScript → Except Nat (List Nat)
  serialize_module : CompiledModule → Except Nat (List Nat)

/-- The `Compiler` struct of `language/compiler/src/lib.rs`. -/
structure Compiler where
  address : AccountAddress
  code : String
  skip_stdlib_deps : Bool
  stdlib_address : AccountAddress
  extra_deps : List VerifiedModule
deriving DecidableEq

/-- `Compiler::deps`: `mem::replace` empties `self.extra_deps`, then the old
extras are returned unchanged when `skip_stdlib_deps`, else appended after
the stdlib baseline. Returns the dependency list together with the mutated
`self`. -/
def Compiler.deps (env : CompilerEnv) (c : Compiler) :
    List VerifiedModule × Compiler :=
  let extra_deps := c.extra_deps
  let c' := { c with extra_deps := [] }
  if c.skip_stdlib_deps then
    (extra_deps, c')
  else
    (env.stdlib_modules ++ extra_deps, c')

/-- `Compiler::add_std_deps`: `mem::replace` on the local argument `deps2`
(no effect on `self`), then stdlib baseline followed by the argument,
unconditionally. Returns the list together with the (unchanged) `self`. -/
def Compiler.add_std_deps (env : CompilerEnv) (c : Compiler)
    (deps2 : List VerifiedModule) : List VerifiedModule × Compiler :=
  (env.stdlib_modules ++ deps2, c)

/-- `Compiler::compile_impl`: parse, resolve deps via `Compiler::deps`,
emit via `compile_program`; the `?` operator propagates each failure. -/
def Compiler.compile_impl (env : CompilerEnv) (c : Compiler) :
    RustOutcome (CompiledProgram × List VerifiedModule) :=
  match env.parse_program c.code with
  | .error e => .err (.parseError e)
  | .ok parsed_program =>
    match (Compiler.deps env c).fst with
    | deps =>
      match env.compile_program c.address parsed_program deps with
      | .error e => .err (.compileError e)
      | .ok compiled_program => .ok (compiled_program, deps)

/-- `Compiler::compile_impl_2`: parse, then emit via `compile_program_2`
using the caller-supplied dependency list; `Compiler::deps` is not called. -/
def Compiler.compile_impl_2 (env : CompilerEnv) (c : Compiler)
    (deps : List VerifiedModule) : RustOutcome CompiledProgram :=
  match env.parse_program c.code with
  | .error e => .err (.parseError e)
  | .ok parsed_program =>
    match env.compile_program_2 c.address parsed_program deps with
    | .error e => .err (.compileError e)
    | .ok compiled_program => .ok compiled_program

/-- `Compiler::compile_mod`: parse, resolve deps, then
`assert_eq!(parsed_program.modules.len(), 1, ...)` — a process abort when
the length differs from 1 — then `.get(0).expect(...)` and emission. -/
def Compiler.compile_mod (env : CompilerEnv) (c : Compiler) :
    RustOutcome (CompiledModule × List VerifiedModule) :=
  match env.parse_program c.code with
  | .error e => .err (.parseError e)
  | .ok parsed_program =>
    match (Compiler.deps env c).fst with
    | deps =>
      if parsed_program.modules.length = 1 then
        match parsed_program.modules.get? 0 with
        | none => .abort
        | some m =>
          match env.compile_module c.address m deps with
          | .error e => .err (.compileError e)
          | .ok compiled_module => .ok (compiled_module, deps)
      else
        .abort

/-- `Compiler::into_compiled_program`: `compile_impl` and drop the deps. -/
def Compiler.into_compiled_program (env : CompilerEnv) (c : Compiler) :
    RustOutcome CompiledProgram :=
  match Compiler.compile_impl env c with
  | .ok p => .ok p.fst
  | .err e => .err e
  | .abort => .abort

/-- `Compiler::into_script`: `compile_impl` and project the script. -/
def Compiler.into_script (env : CompilerEnv) (c : Compiler) :
    RustOutcome CompiledScript :=
  match Compiler.compile_impl env c with
  | .ok p => .ok p.fst.script
  | .err e => .err e
  | .abort => .abort

/-- `Compiler::into_script_blob`: `compile_impl`, then serialize the script
with `?` (a serialization failure is a returned error). -/
def Compiler.into_script_blob (env : CompilerEnv) (c : Compiler) :
    RustOutcome (List Nat) :=
  match Compiler.compile_impl env c with
  | .err e => .err e
  | .abort => .abort
  | .ok p =>
    match env.serialize_script p.fst.script with
    | .error e => .err (.serializationError e)
    | .ok serialized_script => .ok serialized_script

/-- `Compiler::into_compiled_module`: `compile_mod` and drop the deps. -/
def Compiler.into_compiled_module (env : CompilerEnv) (c : Compiler) :
    RustOutcome CompiledModule :=
  match Compiler.compile_mod env c with
  | .ok p => .ok p.fst
  | .err e => .err e
  | .abort => .abort

/-- `Compiler::into_module_blob`: `compile_mod`, then serialize the module
with `?` (a serialization failure is a returned error). -/
def Compiler.into_module_blob (env : CompilerEnv) (c : Compiler) :
    RustOutcome (List Nat) :=
  match Compiler.compile_mod env c with
  | .err e => .err e
  | .abort => .abort
  | .ok p =>
    match env.serialize_module p.fst with
    | .error e => .err (.serializationError e)
    | .ok serialized_module => .ok serialized_module

/-- The serialization loop of `into_program` / `into_program_2`:
`m.serialize(&mut module).expect("module must serialize")` — a failure
aborts the process — collecting the byte blocks in input order. -/
def serializeModulesLoop (env : CompilerEnv) :
    List CompiledModule → RustOutcome (List (List Nat))
  | [] => .ok []
  | m :: ms =>
    match env.serialize_module m with
    | .error _ => .abort
    | .ok b =>
      match serializeModulesLoop env ms with
      | .ok bs => .ok (b :: bs)
      | .err e => .err e
      | .abort => .abort

/-- `Compiler::into_program`: `compile_impl`, serialize the script with `?`,
serialize each module with `.expect`, assemble `Program::new` with the
caller's argument list. -/
def Compiler.into_program (env : CompilerEnv) (c : Compiler)
    (args : List TransactionArgument) : RustOutcome Program :=
  match Compiler.compile_impl env c with
  | .err e => .err e
  | .abort => .abort
  | .ok p =>
    match env.serialize_script p.fst.script with
    | .error e => .err (.serializationError e)
    | .ok serialized_script =>
      match serializeModulesLoop env p.fst.modules with
      | .err e => .err e
      | .abort => .abort
      | .ok serialized_modules =>
        .ok (Program.mk serialized_script serialized_modules args)

/-- `Compiler::into_program_and_deps`: as `into_program` but also returns
the dependency list and the compiled modules. -/
def Compiler.into_program_and_deps (env : CompilerEnv) (c : Compiler)
    (args : List TransactionArgument) :
    RustOutcome (Program × List VerifiedModule × List CompiledModule) :=
  match Compiler.compile_impl env c with
  | .err e => .err e
  | .abort => .abort
  | .ok p =>
    match env.serialize_script p.fst.script with
    | .error e => .err (.serializationError e)
    | .ok serialized_script =>
      match serializeModulesLoop env p.fst.modules with
      | .err e => .err e
      | .abort => .abort
      | .ok serialized_modules =>
        .ok (Program.mk serialized_script serialized_modules args,
          p.snd, p.fst.modules)

/-- `Compiler::into_program_2`: the `deps` parameter is never read; the
dependency set used is `add_std_deps(self.extra_deps.clone())`, then
`compile_impl_2`, then the same serialization and assembly as
`into_program`. -/
def Compiler.into_program_2 (env : CompilerEnv) (c : Compiler)
    (args : List TransactionArgument) (deps : List CompiledModule) :
    RustOutcome Program :=
  let deps_std := (Compiler.add_std_deps env c c.extra_deps).fst
  match Compiler.compile_impl_2 env c deps_std with
  | .err e => .err e
  | .abort => .abort
  | .ok compiled_program =>
    match env.serialize_script compiled_program.script with
    | .error e => .err (.serializationError e)
    | .ok serialized_script =>
      match serializeModulesLoop env compiled_program.modules with
      | .err e => .err e
      | .abort => .abort
      | .ok serialized_modules =>
        .ok (Program.mk serialized_script serialized_modules args)

end LibraCompiler

namespace LibraTypes

/-- `EVENT_KEY_LENGTH` from `types/src/event.rs`. -/
def EVENT_KEY_LENGTH : Nat := 32

/-- `EventKey([u8; EVENT_KEY_LENGTH])`: byte array of an event key; bytes
are `Nat` values (meaningful values are below 256). -/
structure EventKey where
  data : List Nat
deriving DecidableEq

/-- `EventKey::new`. -/
def EventKey.new (key : List Nat) : EventKey :=
  EventKey.mk key

/-- `EventKey::as_bytes`: the byte representation of the key. -/
def EventKey.as_bytes (k : EventKey) : List Nat :=
  k.data

/-- `EventKey::to_vec`: the key as an owned byte vector. -/
def EventKey.to_vec (k : EventKey) : List Nat :=
  k.data

/-- `TryFrom<&[u8]> for EventKey`: `ensure!` fails (returning the offending
bytes as the error payload) unless the slice length is exactly
`EVENT_KEY_LENGTH`; on success `copy_from_slice` copies the slice into the
key. -/
def EventKey.try_from (bytes : List Nat) : Except (List Nat) EventKey :=
  if bytes.length = EVENT_KEY_LENGTH then
    Except.ok (EventKey.mk bytes)
  else
    Except.error bytes

/-- `EventHandle { key, count }` from `types/src/event.rs`; `count` is a
`u64` so meaningful values are below `2 ^ 64`. -/
structure EventHandle where
  key : EventKey
  count : Nat
deriving DecidableEq

/-- `EventHandle::new`. -/
def EventHandle.new (key : EventKey) (count : Nat) : EventHandle :=
  EventHandle.mk key count

/-- Modelled from the spec: the `canonical_serialization` crate is outside
this slice; per the spec, canonical serialization is "a deterministic,
byte-exact encoding such that identical logical values always produce
identical bytes". Fixed-width little-endian byte encoding of a natural
number, `width` bytes. -/
def leBytes : Nat → Nat → List Nat
  | 0, _ => []
  | width + 1, n => n % 256 :: leBytes width (n / 256)

/-- Value of a little-endian byte list. -/
def leVal : List Nat → Nat
  | [] => 0
  | b :: bs => b + 256 * leVal bs

/-- Modelled from the spec: `CanonicalSerializer::encode_u64`, appending the
8-byte little-endian encoding of the value. -/
def encode_u64 (n : Nat) : List Nat :=
  leBytes 8 n

/-- Modelled from the spec: `CanonicalSerializer::encode_bytes`, appending a
4-byte little-endian length followed by the raw bytes. -/
def encode_bytes (bs : List Nat) : List Nat :=
  leBytes 4 bs.length ++ bs

/-- Modelled from the spec: reading `width` little-endian bytes from the
front of the input; fails when fewer bytes remain. -/
def readLE (width : Nat) (input : List Nat) :
    Except Unit (Nat × List Nat) :=
  if width ≤ input.length then
    Except.ok (leVal (input.take width), input.drop width)
  else
    Except.error ()

/-- Modelled from the spec: `CanonicalDeserializer::decode_u64`. -/
def decode_u64 (input : List Nat) : Except Unit (Nat × List Nat) :=
  readLE 8 input

/-- Modelled from the spec: `CanonicalDeserializer::decode_bytes`, reading a
4-byte little-endian length then that many raw bytes. -/
def decode_bytes (input : List Nat) :
    Except Unit (List Nat × List Nat) :=
  match readLE 4 input with
  | .error e => .error e
  | .ok (len, rest) =>
    if len ≤ rest.length then
      .ok (rest.take len, rest.drop len)
    else
      .error ()

/-- `CanonicalSerialize for EventKey`: `encode_bytes(&self.0)`. -/
def EventKey.serialize (k : EventKey) : List Nat :=
  encode_bytes k.data

/-- `CanonicalDeserialize for EventKey`: `decode_bytes` then `try_from`. -/
def EventKey.deserialize (input : List Nat) :
    Except Unit (EventKey × List Nat) :=
  match decode_bytes input with
  | .error e => .error e
  | .ok (bytes, rest) =>
    match EventKey.try_from bytes with
    | .error _ => .error ()
    | .ok k => .ok (k, rest)

/-- `CanonicalSerialize for EventHandle`:
`encode_u64(self.count)` then `encode_struct(&self.key)`. -/
def EventHandle.serialize (h : EventHandle) : List Nat :=
  encode_u64 h.count ++ EventKey.serialize h.key

/-- `CanonicalDeserialize for EventHandle`: `decode_u64` then
`decode_struct`, fields read in serialization order. -/
def EventHandle.deserialize (input : List Nat) :
    Except Unit (EventHandle × List Nat) :=
  match decode_u64 input with
  | .error e => .error e
  | .ok (count, rest) =>
    match EventKey.deserialize rest with
    | .error e => .error e
    | .ok (key, rest₂) => .ok (EventHandle.mk key count, rest₂)

end LibraTypes

namespace LibraCompiler

/-! Concrete collaborator environments and configurations, used to
instantiate the universally quantified theorems below on closed inputs. -/

/-- A collaborator environment in which every stage succeeds: parsing
yields one module, emission yields a one-module program, and the
serializers emit the handle as a single byte. -/
def envOk : CompilerEnv where
  parse_program := fun _ => Except.ok (ParsedProgram.mk 0 [ParsedModuleDef.mk 5])
  compile_program := fun _ _ _ =>
    Except.ok (CompiledProgram.mk (CompiledScript.mk 7) [CompiledModule.mk 9])
  compile_program_2 := fun _ _ _ =>
    Except.ok (CompiledProgram.mk (CompiledScript.mk 7) [CompiledModule.mk 9])
  compile_module := fun _ _ _ => Except.ok (CompiledModule.mk 11)
  stdlib_modules := [VerifiedModule.mk 1, VerifiedModule.mk 2]
  serialize_script := fun s => Except.ok [s.sid]
  serialize_module := fun m => Except.ok [m.mid]

/-- Like `envOk` but parsing yields a program with zero modules. -/
def envZeroMods : CompilerEnv :=
  { envOk with parse_program := fun _ => Except.ok (ParsedProgram.mk 0 []) }

/-- Like `envOk` but parsing yields a program with two modules. -/
def envTwoMods : CompilerEnv :=
  { envOk with parse_program := fun _ =>
      Except.ok (ParsedProgram.mk 0 [ParsedModuleDef.mk 5, ParsedModuleDef.mk 6]) }

/-- Like `envOk` but parsing fails with error payload 42. -/
def envParseFail : CompilerEnv :=
  { envOk with parse_program := fun _ => Except.error 42 }

/-- A configuration with default-like fields and no extra dependencies. -/
def cfg0 : Compiler :=
  Compiler.mk (AccountAddress.mk 0) "m" false (AccountAddress.mk 0) []

/-- As `cfg0` but with a different (unused) stdlib address. -/
def cfgB : Compiler :=
  Compiler.mk (AccountAddress.mk 0) "m" false (AccountAddress.mk 5) []

/-- A configuration carrying one extra dependency. -/
def cfgExtras : Compiler :=
  Compiler.mk (AccountAddress.mk 0) "m" false (AccountAddress.mk 0)
    [VerifiedModule.mk 7]

/-! Helper lemmas shared by the claim theorems. -/

/-- Closed form of the dependency list returned by `Compiler::deps`. -/
theorem deps_fst_eq (env : CompilerEnv) (c : Compiler) :
    (Compiler.deps env c).fst =
      if c.skip_stdlib_deps then c.extra_deps
      else env.stdlib_modules ++ c.extra_deps := by
  by_cases h : c.skip_stdlib_deps <;> simp [Compiler.deps, h]

/-- Closed form of the mutated configuration returned by `Compiler::deps`:
the extra-dependency list is emptied. -/
theorem deps_snd_eq (env : CompilerEnv) (c : Compiler) :
    (Compiler.deps env c).snd = { c with extra_deps := [] } := by
  by_cases h : c.skip_stdlib_deps <;> simp [Compiler.deps, h]

/-- The serialization loop succeeds and returns exactly the pointwise
serializations, in input order, when each module serializes. -/
theorem serializeModulesLoop_of_forall₂ (env : CompilerEnv)
    {ms : List CompiledModule} {bs : List (List Nat)}
    (h : List.Forall₂ (fun m b => env.serialize_module m = Except.ok b) ms bs) :
    serializeModulesLoop env ms = RustOutcome.ok bs := by
  induction h with
  | nil => rfl
  | cons hmb _ ih => simp [serializeModulesLoop, hmb, ih]

end LibraCompiler

namespace LibraTypes

/-- `leBytes` always produces exactly `width` bytes. -/
theorem leBytes_length (width n : Nat) : (leBytes width n).length = width := by
  induction width generalizing n with
  | zero => rfl
  | succ w ih => simp [leBytes, ih]

/-- Decoding the little-endian bytes of `n` recovers `n` modulo
`256 ^ width`. -/
theorem leVal_leBytes (width n : Nat) :
    leVal (leBytes width n) = n % 256 ^ width := by
  induction width generalizing n with
  | zero => simp [leBytes, leVal, Nat.mod_one]
  | succ w ih =>
    rw [leBytes, leVal, ih, pow_succ, mul_comm (256 ^ w) 256, Nat.mod_mul]

/-- Reading `width` bytes from `bs ++ rest` with `bs.length = width`
consumes exactly `bs`. -/
theorem readLE_append (width : Nat) (bs rest : List Nat)
    (h : bs.length = width) :
    readLE width (bs ++ rest) = Except.ok (leVal bs, rest) := by
  subst h
  rw [readLE, if_pos (by simp)]
  rw [List.take_left, List.drop_left]

/-- Round trip of the modelled `encode_u64` / `decode_u64` pair for values
in `u64` range. -/
theorem decode_u64_encode (n : Nat) (rest : List Nat) (h : n < 2 ^ 64) :
    decode_u64 (encode_u64 n ++ rest) = Except.ok (n, rest) := by
  rw [decode_u64, encode_u64, readLE_append 8 _ rest (leBytes_length 8 n),
    leVal_leBytes]
  have h256 : (256 : Nat) ^ 8 = 2 ^ 64 := by norm_num
  rw [h256, Nat.mod_eq_of_lt h]

/-- Round trip of the modelled `encode_bytes` / `decode_bytes` pair for
byte strings whose length fits the `u32` length prefix. -/
theorem decode_bytes_encode (bs rest : List Nat) (h : bs.length < 2 ^ 32) :
    decode_bytes (encode_bytes bs ++ rest) = Except.ok (bs, rest) := by
  rw [decode_bytes, encode_bytes, List.append_assoc,
    readLE_append 4 _ _ (leBytes_length 4 _), leVal_leBytes]
  have h256 : (256 : Nat) ^ 4 = 2 ^ 32 := by norm_num
  rw [h256, Nat.mod_eq_of_lt h]
  simp only [if_pos (by simp : bs.length ≤ (bs ++ rest).length)]
  rw [List.take_left, List.drop_left]

end LibraTypes

namespace LibraCompiler

/-- C1 (counterexample): on a source unit whose parsed form contains zero
modules, the module-compile entry points abort the process (the arity check
is `assert_eq!`), rather than returning an `ArityError` error value — the
claim "fails with an ArityError reported as a returned error value, and
never aborts or panics" is false on this code. -/
theorem compile_mod_zero_modules_aborts :
    Compiler.compile_mod envZeroMods cfg0 = RustOutcome.abort
  ∧ Compiler.into_compiled_module envZeroMods cfg0 = RustOutcome.abort
  ∧ Compiler.into_module_blob envZeroMods cfg0 = RustOutcome.abort := by
  refine ⟨rfl, rfl, rfl⟩

/-- C1 (amended): whenever the parsed form of the source unit contains a
number of modules different from one, `compile_mod` (and the entry points
`into_compiled_module` and `into_module_blob` built on it) aborts the
process via the `assert_eq!` arity assertion; no error value is returned. -/
theorem compile_mod_arity_aborts (env : CompilerEnv) (c : Compiler)
    (parsed : ParsedProgram)
    (hp : env.parse_program c.code = Except.ok parsed)
    (hn : parsed.modules.length ≠ 1) :
    Compiler.compile_mod env c = RustOutcome.abort
  ∧ Compiler.into_compiled_module env c = RustOutcome.abort
  ∧ Compiler.into_module_blob env c = RustOutcome.abort := by
  have h1 : Compiler.compile_mod env c = RustOutcome.abort := by
    unfold Compiler.compile_mod
    rw [hp]
    simp [hn]
  exact ⟨h1, by simp [Compiler.into_compiled_module, h1],
    by simp [Compiler.into_module_blob, h1]⟩

/-- C1 (witness for the amended theorem): instantiated on a source unit
whose parsed form contains two modules. -/
theorem compile_mod_arity_aborts_witness :
    Compiler.compile_mod envTwoMods cfg0 = RustOutcome.abort
  ∧ Compiler.into_compiled_module envTwoMods cfg0 = RustOutcome.abort
  ∧ Compiler.into_module_blob envTwoMods cfg0 = RustOutcome.abort :=
  compile_mod_arity_aborts envTwoMods cfg0
    (ParsedProgram.mk 0 [ParsedModuleDef.mk 5, ParsedModuleDef.mk 6])
    rfl (by decide)

/-- C2: the dependency list returned by `Compiler::deps` is exactly the
extras when the skip flag is set, and otherwise the stdlib baseline
followed by the extras; in particular, when the skip flag is false every
baseline module is in the result. -/
theorem deps_resolution (env : CompilerEnv) (c : Compiler) :
    ((Compiler.deps env c).fst =
      if c.skip_stdlib_deps then c.extra_deps
      else env.stdlib_modules ++ c.extra_deps)
  ∧ (c.skip_stdlib_deps = false →
      ∀ m, m ∈ env.stdlib_modules → m ∈ (Compiler.deps env c).fst) := by
  refine ⟨deps_fst_eq env c, ?_⟩
  intro hskip m hm
  rw [deps_fst_eq, hskip]
  simp [hm]

/-- C2 (witness): instantiated on a concrete environment and configuration
with the skip flag false. -/
theorem deps_resolution_witness :
    ((Compiler.deps envOk cfgExtras).fst =
      if cfgExtras.skip_stdlib_deps then cfgExtras.extra_deps
      else envOk.stdlib_modules ++ cfgExtras.extra_deps)
  ∧ (cfgExtras.skip_stdlib_deps = false →
      ∀ m, m ∈ envOk.stdlib_modules → m ∈ (Compiler.deps envOk cfgExtras).fst) :=
  deps_resolution envOk cfgExtras

/-- C3 (counterexample): resolving a configuration that carries one extra
dependency, then resolving the configuration it returns, yields a
different dependency set, and the first resolution does not leave the
extra-dependency list unchanged — `Compiler::deps` is neither idempotent
nor side-effect-free. -/
theorem deps_not_idempotent :
    (Compiler.deps envOk (Compiler.deps envOk cfgExtras).snd).fst
      ≠ (Compiler.deps envOk cfgExtras).fst
  ∧ (Compiler.deps envOk cfgExtras).snd.extra_deps ≠ cfgExtras.extra_deps := by
  refine ⟨by decide, by decide⟩

/-- C3 (amended): `Compiler::deps` consumes the configuration's
extra-dependency list — the configuration it returns has an empty extras
list, so a second resolution yields only the baseline (skip flag false) or
the empty set (skip flag true); `Compiler::add_std_deps`, by contrast, is
side-effect-free on the configuration and yields the same set on repeated
calls. -/
theorem deps_consumes_extras (env : CompilerEnv) (c : Compiler)
    (xs : List VerifiedModule) :
    (Compiler.deps env c).snd = { c with extra_deps := [] }
  ∧ (Compiler.deps env (Compiler.deps env c).snd).fst
      = (if c.skip_stdlib_deps then [] else env.stdlib_modules)
  ∧ (Compiler.add_std_deps env c xs).snd = c
  ∧ (Compiler.add_std_deps env (Compiler.add_std_deps env c xs).snd xs).fst
      = (Compiler.add_std_deps env c xs).fst := by
  refine ⟨deps_snd_eq env c, ?_, rfl, rfl⟩
  rw [deps_snd_eq, deps_fst_eq]
  by_cases h : c.skip_stdlib_deps <;> simp [h]

/-- C3 (witness for the amended theorem): instantiated on the concrete
configuration carrying one extra dependency. -/
theorem deps_consumes_extras_witness :
    (Compiler.deps envOk cfgExtras).snd = { cfgExtras with extra_deps := [] }
  ∧ (Compiler.deps envOk (Compiler.deps envOk cfgExtras).snd).fst
      = (if cfgExtras.skip_stdlib_deps then [] else envOk.stdlib_modules)
  ∧ (Compiler.add_std_deps envOk cfgExtras cfgExtras.extra_deps).snd = cfgExtras
  ∧ (Compiler.add_std_deps envOk
        (Compiler.add_std_deps envOk cfgExtras cfgExtras.extra_deps).snd
        cfgExtras.extra_deps).fst
      = (Compiler.add_std_deps envOk cfgExtras cfgExtras.extra_deps).fst :=
  deps_consumes_extras envOk cfgExtras cfgExtras.extra_deps

/-- C4: `Compiler::add_std_deps` returns the stdlib baseline followed by
the supplied extras, unconditionally; its output does not depend on the
configuration's skip flag (the right-hand side mentions no field of `c`,
and flipping the flag leaves the output unchanged). -/
theorem add_std_deps_forced_merge (env : CompilerEnv) (c : Compiler)
    (xs : List VerifiedModule) :
    (Compiler.add_std_deps env c xs).fst = env.stdlib_modules ++ xs
  ∧ ∀ b, (Compiler.add_std_deps env { c with skip_stdlib_deps := b } xs).fst
      = (Compiler.add_std_deps env c xs).fst :=
  ⟨rfl, fun _ => rfl⟩

/-- C4 (witness): instantiated on the concrete environment and
configuration. -/
theorem add_std_deps_forced_merge_witness :
    (Compiler.add_std_deps envOk cfg0 [VerifiedModule.mk 7]).fst
      = envOk.stdlib_modules ++ [VerifiedModule.mk 7]
  ∧ ∀ b, (Compiler.add_std_deps envOk { cfg0 with skip_stdlib_deps := b }
        [VerifiedModule.mk 7]).fst
      = (Compiler.add_std_deps envOk cfg0 [VerifiedModule.mk 7]).fst :=
  add_std_deps_forced_merge envOk cfg0 [VerifiedModule.mk 7]

/-- C5: when compilation and serialization succeed, `into_program` returns
`Program::new` applied to the serialized script, the module byte blocks
that are exactly the pointwise serializations of the compiled modules in
their original order (`List.Forall₂` relates the two lists position by
position), and the caller's argument list unchanged. -/
theorem into_program_payload (env : CompilerEnv) (c : Compiler)
    (args : List TransactionArgument) (compiled : CompiledProgram)
    (deps : List VerifiedModule) (script_bytes : List Nat)
    (module_bytes : List (List Nat))
    (h1 : Compiler.compile_impl env c = RustOutcome.ok (compiled, deps))
    (h2 : env.serialize_script compiled.script = Except.ok script_bytes)
    (h3 : List.Forall₂ (fun m b => env.serialize_module m = Except.ok b)
      compiled.modules module_bytes) :
    Compiler.into_program env c args =
      RustOutcome.ok (Program.mk script_bytes module_bytes args) := by
  unfold Compiler.into_program
  rw [h1]
  simp [h2, serializeModulesLoop_of_forall₂ env h3]

/-- C5 (witness): instantiated on the concrete all-success environment; the
single compiled module with handle 9 serializes to byte block `[9]` and
the one-element argument list passes through. -/
theorem into_program_payload_witness :
    Compiler.into_program envOk cfgExtras [TransactionArgument.mk 3] =
      RustOutcome.ok
        (Program.mk [7] [[9]] [TransactionArgument.mk 3]) :=
  into_program_payload envOk cfgExtras [TransactionArgument.mk 3]
    (CompiledProgram.mk (CompiledScript.mk 7) [CompiledModule.mk 9])
    [VerifiedModule.mk 1, VerifiedModule.mk 2, VerifiedModule.mk 7]
    [7] [[9]] (by decide) rfl
    (List.Forall₂.cons rfl List.Forall₂.nil)

/-- C6: when parsing fails, `compile_impl` and every entry point built on
it (and `compile_mod` with its entry points) return exactly that parse
error; the final conjunct shows the emit stage is never consulted — the
outcome is unchanged under arbitrary replacement of the emitter
collaborators. -/
theorem parse_error_propagates (env : CompilerEnv) (c : Compiler)
    (args : List TransactionArgument) (e : Nat)
    (hp : env.parse_program c.code = Except.error e) :
    Compiler.compile_impl env c = RustOutcome.err (CompilerError.parseError e)
  ∧ Compiler.into_compiled_program env c
      = RustOutcome.err (CompilerError.parseError e)
  ∧ Compiler.into_script env c = RustOutcome.err (CompilerError.parseError e)
  ∧ Compiler.into_script_blob env c
      = RustOutcome.err (CompilerError.parseError e)
  ∧ Compiler.into_program env c args
      = RustOutcome.err (CompilerError.parseError e)
  ∧ Compiler.into_program_and_deps env c args
      = RustOutcome.err (CompilerError.parseError e)
  ∧ Compiler.compile_mod env c = RustOutcome.err (CompilerError.parseError e)
  ∧ Compiler.into_module_blob env c
      = RustOutcome.err (CompilerError.parseError e)
  ∧ ∀ f g, Compiler.compile_impl
      { env with compile_program := f, compile_module := g } c
      = RustOutcome.err (CompilerError.parseError e) := by
  have h1 : Compiler.compile_impl env c
      = RustOutcome.err (CompilerError.parseError e) := by
    unfold Compiler.compile_impl
    rw [hp]
  have hm : Compiler.compile_mod env c
      = RustOutcome.err (CompilerError.parseError e) := by
    unfold Compiler.compile_mod
    rw [hp]
  refine ⟨h1, by simp [Compiler.into_compiled_program, h1],
    by simp [Compiler.into_script, h1],
    by simp [Compiler.into_script_blob, h1],
    by simp [Compiler.into_program, h1],
    by simp [Compiler.into_program_and_deps, h1],
    hm, by simp [Compiler.into_module_blob, hm], ?_⟩
  intro f g
  have hp' : ({ env with compile_program := f, compile_module := g } :
      CompilerEnv).parse_program c.code = Except.error e := hp
  unfold Compiler.compile_impl
  rw [hp']

/-- C6 (witness): instantiated on the concrete environment whose parser
fails with payload 42. -/
theorem parse_error_propagates_witness :
    Compiler.into_program envParseFail cfg0 []
      = RustOutcome.err (CompilerError.parseError 42) :=
  (parse_error_propagates envParseFail cfg0 [] 42 rfl).2.2.2.2.1

/-- C7: compilation is a function of (source text, sender address, skip
flag, extra dependencies) alone — two configurations agreeing on those
fields (the unused `stdlib_address` may differ) produce identical
serialized output from `into_script_blob`, `into_module_blob` and
`into_program`; in particular, compiling identical inputs twice yields
byte-identical output both times. -/
theorem compile_deterministic (env : CompilerEnv) (c₁ c₂ : Compiler)
    (args : List TransactionArgument)
    (hcode : c₁.code = c₂.code) (haddr : c₁.address = c₂.address)
    (hskip : c₁.skip_stdlib_deps = c₂.skip_stdlib_deps)
    (hdeps : c₁.extra_deps = c₂.extra_deps) :
    Compiler.into_script_blob env c₁ = Compiler.into_script_blob env c₂
  ∧ Compiler.into_module_blob env c₁ = Compiler.into_module_blob env c₂
  ∧ Compiler.into_program env c₁ args = Compiler.into_program env c₂ args := by
  have hi : Compiler.compile_impl env c₁ = Compiler.compile_impl env c₂ := by
    unfold Compiler.compile_impl
    rw [hcode, haddr, deps_fst_eq, deps_fst_eq, hskip, hdeps]
  have hm : Compiler.compile_mod env c₁ = Compiler.compile_mod env c₂ := by
    unfold Compiler.compile_mod
    rw [hcode, haddr, deps_fst_eq, deps_fst_eq, hskip, hdeps]
  refine ⟨?_, ?_, ?_⟩
  · unfold Compiler.into_script_blob
    rw [hi]
  · unfold Compiler.into_module_blob
    rw [hm]
  · unfold Compiler.into_program
    rw [hi]

/-- C7 (witness): the two concrete configurations differ only in the
stdlib address, and each serializing entry point yields identical
output on both. -/
theorem compile_deterministic_witness :
    Compiler.into_script_blob envOk cfg0 = Compiler.into_script_blob envOk cfgB
  ∧ Compiler.into_module_blob envOk cfg0 = Compiler.into_module_blob envOk cfgB
  ∧ Compiler.into_program envOk cfg0 [] = Compiler.into_program envOk cfgB [] :=
  compile_deterministic envOk cfg0 cfgB [] rfl rfl rfl rfl

/-- C8: the `deps` parameter of `into_program_2` has no influence on the
result — any two calls differing only in that argument return identical
output — and the dependency set actually used is
`add_std_deps(self.extra_deps)`, i.e. the baseline merged with the
configuration's own extras. -/
theorem into_program_2_ignores_deps (env : CompilerEnv) (c : Compiler)
    (args : List TransactionArgument) (deps₁ deps₂ : List CompiledModule) :
    Compiler.into_program_2 env c args deps₁
      = Compiler.into_program_2 env c args deps₂
  ∧ Compiler.into_program_2 env c args deps₁
      = Compiler.into_program_2 env c args [] :=
  ⟨rfl, rfl⟩

/-- C8 (witness): instantiated with two visibly different dependency
arguments. -/
theorem into_program_2_ignores_deps_witness :
    Compiler.into_program_2 envOk cfgExtras [] [CompiledModule.mk 100]
      = Compiler.into_program_2 envOk cfgExtras [] [CompiledModule.mk 200]
  ∧ Compiler.into_program_2 envOk cfgExtras [] [CompiledModule.mk 100]
      = Compiler.into_program_2 envOk cfgExtras [] [] :=
  into_program_2_ignores_deps envOk cfgExtras []
    [CompiledModule.mk 100] [CompiledModule.mk 200]

end LibraCompiler

namespace LibraTypes

/-- C9: `EventKey::try_from` succeeds exactly when the input slice length
is `EVENT_KEY_LENGTH`, and on success the constructed key's byte
representation (`as_bytes` and `to_vec`) equals the input slice. -/
theorem event_key_try_from_spec (bytes : List Nat) :
    ((∃ k, EventKey.try_from bytes = Except.ok k) ↔
      bytes.length = EVENT_KEY_LENGTH)
  ∧ ∀ k, EventKey.try_from bytes = Except.ok k →
      k.as_bytes = bytes ∧ k.to_vec = bytes := by
  by_cases h : bytes.length = EVENT_KEY_LENGTH
  · refine ⟨⟨fun _ => h, fun _ => ⟨EventKey.mk bytes, ?_⟩⟩, ?_⟩
    · rw [EventKey.try_from, if_pos h]
    · intro k hk
      rw [EventKey.try_from, if_pos h] at hk
      cases hk
      exact ⟨rfl, rfl⟩
  · refine ⟨⟨?_, fun hl => absurd hl h⟩, ?_⟩
    · rintro ⟨k, hk⟩
      rw [EventKey.try_from, if_neg h] at hk
      cases hk
    · intro k hk
      rw [EventKey.try_from, if_neg h] at hk
      cases hk

/-- C9 (witness): instantiated on the all-zero 32-byte slice. -/
theorem event_key_try_from_spec_witness :
    ((∃ k, EventKey.try_from (List.replicate 32 0) = Except.ok k) ↔
      (List.replicate 32 0).length = EVENT_KEY_LENGTH)
  ∧ ∀ k, EventKey.try_from (List.replicate 32 0) = Except.ok k →
      k.as_bytes = List.replicate 32 0 ∧ k.to_vec = List.replicate 32 0 :=
  event_key_try_from_spec (List.replicate 32 0)

/-- A concrete event handle: the all-zero 32-byte key with count 5. -/
def handle0 : EventHandle :=
  EventHandle.mk (EventKey.mk (List.replicate 32 0)) 5

/-- C10: canonical serialization of an `EventHandle` writes the count as a
`u64` followed by the encoded key, and deserialization, which reads the
fields in the same order, is a left inverse of serialization: for every
handle whose count is in `u64` range and whose key holds
`EVENT_KEY_LENGTH` bytes (both guaranteed by the Rust types),
deserializing the serialized bytes yields the handle back with no bytes
left over. -/
theorem event_handle_roundtrip (h : EventHandle)
    (hc : h.count < 2 ^ 64) (hk : h.key.data.length = EVENT_KEY_LENGTH) :
    EventHandle.serialize h = encode_u64 h.count ++ encode_bytes h.key.data
  ∧ EventHandle.deserialize (EventHandle.serialize h)
      = Except.ok (h, []) := by
  refine ⟨rfl, ?_⟩
  have h1 : decode_u64 (encode_u64 h.count ++ encode_bytes h.key.data)
      = Except.ok (h.count, encode_bytes h.key.data) :=
    decode_u64_encode h.count (encode_bytes h.key.data) hc
  have h3 : decode_bytes (encode_bytes h.key.data ++ []) =
      Except.ok (h.key.data, []) :=
    decode_bytes_encode h.key.data []
      (by rw [hk]; norm_num [EVENT_KEY_LENGTH])
  rw [List.append_nil] at h3
  simp [EventHandle.deserialize, EventHandle.serialize, EventKey.serialize,
    EventKey.deserialize, h1, h3, EventKey.try_from, hk]

/-- C10 (witness): instantiated on the concrete handle `handle0`. -/
theorem event_handle_roundtrip_witness :
    EventHandle.serialize handle0
      = encode_u64 handle0.count ++ encode_bytes handle0.key.data
  ∧ EventHandle.deserialize (EventHandle.serialize handle0)
      = Except.ok (handle0, []) :=
  event_handle_roundtrip handle0 (by decide) (by decide)

end LibraTypes
